import Mathlib

/-!
Verification development for the jamkillerartist worker repository.

The repository contains several near-duplicate Cloudflare-worker variants of an
image-generation pipeline:
 * `src/unnamed/part_000` ("V0"): trim-based validation, `Response.arrayBuffer`
   upstream handling, base64 storage with a 30-day TTL, success payload with a
   truncated `imagePreview`.
 * `src/unnamed/part_001` ("V1"): trim-based validation, polymorphic upstream
   normalization (ReadableStream / Response, otherwise a 500 with diagnostic
   detail), base64 storage with TTL, success payload is a bare data-URI object.
 * `src/worker/index.ts` first half ("W1"): truthiness-only validation, static
   prompt augmentation, `flux-1-schnell` with `steps: 8`, expects a structured
   `{ image }` payload, stores without TTL, plus GET and DELETE routes.

The definitions below embed those routes and their helpers over lists of bytes
(`List Nat`, each element below 256) and a spec-modelled external key-value
store.  External platform primitives that the code calls but that are not part
of the repository (`btoa`, the key-value store, JavaScript truthiness) are
modelled from their documented behaviour and marked as such.
-/

namespace JamKiller

/-- The standard base64 alphabet, in index order (RFC 4648). -/
def b64Chars : List Char :=
  ['A','B','C','D','E','F','G','H','I','J','K','L','M',
   'N','O','P','Q','R','S','T','U','V','W','X','Y','Z',
   'a','b','c','d','e','f','g','h','i','j','k','l','m',
   'n','o','p','q','r','s','t','u','v','w','x','y','z',
   '0','1','2','3','4','5','6','7','8','9','+','/']

/-- Character of the base64 alphabet at a sextet value. -/
def b64char (n : Nat) : Char := b64Chars.getD n 'A'

/-- Modelled from the spec: the platform primitive `btoa` encodes its input
code points (each below 256) three bytes at a time into four alphabet
characters, padding the final group with `=` per the standard alphabet.
This is the grouping core, producing the character list. -/
def encodeGroups : List Nat → List Char
  | [] => []
  | [a] => [b64char (a / 4), b64char (a % 4 * 16), '=', '=']
  | [a, b] => [b64char (a / 4), b64char (a % 4 * 16 + b / 16), b64char (b % 16 * 4), '=']
  | a :: b :: c :: rest =>
      b64char (a / 4) :: b64char (a % 4 * 16 + b / 16) ::
      b64char (b % 16 * 4 + c / 64) :: b64char (c % 64) :: encodeGroups rest

/-- Modelled from the spec: `btoa` on a binary string whose code points are
all below 256. -/
def btoa (codes : List Nat) : String := String.mk (encodeGroups codes)

/-- `arrayBufferToBase64` from `part_000`/`part_001` (identical in both): the
loop builds the binary string whose code points are exactly the buffer's bytes
(`String.fromCharCode` is the identity on codes below 256), then applies
`btoa`.  A buffer is a list of bytes, each below 256 (`Uint8Array` elements). -/
def arrayBufferToBase64 (buffer : List Nat) : String := btoa buffer

/-- Sextet value of a base64 alphabet character, `none` off the alphabet.
Specification-side helper for standard base64 decoding. -/
def decodeChar (ch : Char) : Option Nat := b64Chars.findIdx? (fun x => x == ch)

/-- Standard base64 decoding of a character list (RFC 4648): groups of four
characters, `=` padding allowed only in the final group.  This is the
specification-side inverse used to state the round-trip law; it is not part of
the repository's code. -/
def decodeGroups : List Char → Option (List Nat)
  | [] => some []
  | w :: x :: y :: z :: rest =>
      match decodeChar w, decodeChar x with
      | some a, some b =>
        if y == '=' then
          if z == '=' && rest.isEmpty then some [a * 4 + b / 16] else none
        else
          match decodeChar y with
          | some c =>
            if z == '=' then
              if rest.isEmpty then some [a * 4 + b / 16, b % 16 * 16 + c / 4] else none
            else
              match decodeChar z with
              | some d =>
                  (decodeGroups rest).map
                    (fun tl => (a * 4 + b / 16) :: (b % 16 * 16 + c / 4) :: (c % 4 * 64 + d) :: tl)
              | none => none
          | none => none
      | _, _ => none
  | _ => none

/-- Standard base64 decoding of a string. -/
def base64Decode (s : String) : Option (List Nat) := decodeGroups s.data

/-- Semantics of `Uint8Array.prototype.set(chunk, offset)` on a backing array:
overwrite the region starting at `offset` with the chunk (in the code the call
is always in bounds, since the target was allocated with the total length). -/
def typedArraySet (arr chunk : List Nat) (offset : Nat) : List Nat :=
  arr.take offset ++ chunk ++ arr.drop (offset + chunk.length)

/-- The second loop of `streamToArrayBuffer` in `part_001`: copy each chunk
into the result at the running offset. -/
def copyChunks : List (List Nat) → List Nat → Nat → List Nat
  | [], result, _ => result
  | chunk :: rest, result, offset => copyChunks rest (typedArraySet result chunk offset) (offset + chunk.length)

/-- `streamToArrayBuffer` from `part_001`.  The stream is modelled as the
finite sequence of byte chunks its reader yields before reporting `done`; the
first loop collects the chunks and accumulates `totalLength`, then the
function allocates a zero-filled buffer of that length and copies each chunk
in at its offset. -/
def streamToArrayBuffer (stream : List (List Nat)) : List Nat :=
  let totalLength := (stream.map List.length).sum
  copyChunks stream (List.replicate totalLength 0) 0

/-- A decoded JSON field value as JavaScript sees it, covering the shapes a
`/generate` request body field can take (the object and array cases are left
opaque: the validators only ever ask for their type and truthiness). -/
inductive JSVal
  | str (s : String)
  | num (n : Int)
  | boolean (b : Bool)
  | jsNull
  | undef
  | obj
  | arr
deriving DecidableEq, Repr

/-- Modelled from the spec: JavaScript truthiness (`!v` is the negation). -/
def truthy : JSVal → Bool
  | .str s => s != ""
  | .num n => n != 0
  | .boolean b => b
  | .jsNull => false
  | .undef => false
  | .obj => true
  | .arr => true

/-- Modelled from the spec: `typeof v === 'string'`. -/
def isStr : JSVal → Bool
  | .str _ => true
  | _ => false

/-- The string payload of a JSVal; the code only reads it under an `isStr`
guard (short-circuit `||`), so the default is never observed. -/
def jsStr : JSVal → String
  | .str s => s
  | _ => ""

/-- Modelled from the spec: JavaScript `ToString` as used by template literals
and implicit string coercion. -/
def jsToString : JSVal → String
  | .str s => s
  | .num n => toString n
  | .boolean b => cond b "true" "false"
  | .jsNull => "null"
  | .undef => "undefined"
  | .obj => "[object Object]"
  | .arr => ""

/-- Modelled from the spec: the whitespace class trimmed by JavaScript
`String.prototype.trim` (the ASCII part: space, tab, line feed, carriage
return, vertical tab, form feed). -/
def isJsWhitespace (c : Char) : Bool :=
  c == ' ' || c == '\t' || c == '\n' || c == '\r' || c == '\x0b' || c == '\x0c'

/-- Modelled from the spec: JavaScript `String.prototype.trim` — drop
leading and trailing whitespace. -/
def jsTrim (s : String) : String :=
  String.mk (((s.data.dropWhile isJsWhitespace).reverse.dropWhile isJsWhitespace).reverse)

/-- Result of the request-body validation prelude of a `/generate` route:
either an early JSON error response (always status 400 in the code) or the
pair of values the rest of the route works with. -/
inductive Validated
  | failed (status : Nat) (msg : String)
  | ok (prompt userId : String)
deriving DecidableEq, Repr

/-- The validation prelude of `POST /generate` in `part_000`/`part_001`
(identical in both): reject a falsy, non-string or whitespace-only `prompt`,
then the same for `userId`; afterwards the route works with the trimmed
values (`sanitizedPrompt`/`sanitizedUserId`). -/
def validateGenerate (prompt userId : JSVal) : Validated :=
  if !truthy prompt || !isStr prompt || jsTrim (jsStr prompt) == "" then
    .failed 400 "Prompt is required and must be a non-empty string"
  else if !truthy userId || !isStr userId || jsTrim (jsStr userId) == "" then
    .failed 400 "userId is required and must be a non-empty string"
  else
    .ok (jsTrim (jsStr prompt)) (jsTrim (jsStr userId))

/-- The validation prelude of `POST /generate` in `src/worker/index.ts`:
only `if (!prompt || !userId)`, and the raw (coerced, untrimmed) values are
used afterwards. -/
def validateGenerateW (prompt userId : JSVal) : Validated :=
  if !truthy prompt || !truthy userId then
    .failed 400 "Prompt and user ID are required"
  else
    .ok (jsToString prompt) (jsToString userId)

/-- A JSON error payload `{ error, detail? }`. -/
structure ErrBody where
  error : String
  detail : Option String
deriving DecidableEq, Repr

/-- Response body of `part_000` routes: the success shape is
`{ message, userId, imagePreview }`. -/
inductive RespBodyV0
  | err (e : ErrBody)
  | success (message userId imagePreview : String)
deriving DecidableEq, Repr

/-- Response body of `part_001` routes: the success shape is
`{ data: { image } }` and carries nothing else. -/
inductive RespBodyV1
  | err (e : ErrBody)
  | success (dataImage : String)
deriving DecidableEq, Repr

/-- Response bodies of the `src/worker/index.ts` routes. -/
inductive RespBodyW
  | err (e : ErrBody)
  | success (message userId image : String)
  | getOk (image : String)
  | deleted (message : String)
deriving DecidableEq, Repr

/-- Options object passed to `AI.run`: the prompt plus the optional tuning
fields used by the variants (`steps` by the first worker variant,
`num_inference_steps`/`guidance_scale` by the second; the guidance scale is
the literal 8.5, modelled as the rational 17/2). -/
structure AIOpts where
  prompt : String
  steps : Option Nat
  numInferenceSteps : Option Nat
  guidanceScale : Option Rat
deriving DecidableEq, Repr

/-- Model identifier used by `part_000`, `part_001`. -/
def modelSDXL : String := "@cf/stabilityai/stable-diffusion-xl-base-1.0"

/-- Model identifier used by the first `src/worker/index.ts` variant. -/
def modelFlux : String := "@cf/black-forest-labs/flux-1-schnell"

/-- The static style/quality template and negative-prompt suffix appended to
the user prompt by `src/worker/index.ts` (the template literal after
`${prompt}`). -/
def styleSuffix : String :=
  "\nStyle: Ultra-detailed digital art, 8K resolution, professional lighting, cinematic composition.\nTechnical specifications:\n- Sharp, clear details with high contrast\n- Rich, vibrant colors with professional color grading\n- Dramatic lighting with perfect exposure\n- Professional composition following rule of thirds\n- Photorealistic textures and materials\n\nNegative prompt: blurry, low resolution, pixelated, watermarks, text overlays, distorted proportions, amateur composition, noise, grain, out of focus, poorly lit, oversaturated, washed out."

/-- The polymorphic upstream result `part_001` receives from `AI.run`: a
byte stream, a `Response`-like object with a buffer accessor, a structured
plain object, or a primitive. -/
inductive AIResponse
  | stream (chunks : List (List Nat))
  | response (buffer : List Nat)
  | structured (fields : List (String × String))
  | num (n : Int)
  | str (s : String)
deriving DecidableEq, Repr

/-- Modelled from the spec: JavaScript `String(x)` on the modelled upstream
values, used by `part_001` to build the diagnostic detail when
`JSON.stringify(await aiResponse.json())` throws (none of the modelled
values carries a callable `.json`, the `Response` shape having been consumed
by the earlier branch, so the `catch` fallback always supplies the detail). -/
def jsStringOf : AIResponse → String
  | .stream _ => "[object ReadableStream]"
  | .response _ => "[object Response]"
  | .structured _ => "[object Object]"
  | .num n => toString n
  | .str s => s

/-- Outcome of `part_001`'s upstream-response normalization. -/
inductive NormResult
  | buffer (buf : List Nat)
  | invalid (detail : String)
deriving DecidableEq, Repr

/-- The response-shape dispatch of `POST /generate` in `part_001`:
`instanceof ReadableStream` drains the stream, `instanceof Response` reads
its `arrayBuffer`, anything else becomes the invalid-response error with a
best-effort diagnostic detail. -/
def normalizeV1 : AIResponse → NormResult
  | .stream chunks => .buffer (streamToArrayBuffer chunks)
  | .response buffer => .buffer buffer
  | r => .invalid (jsStringOf r)

/-- Modelled from the spec: the external key-value store, an association of
string keys to string values.  `get` returns the stored value (or absence),
`put` overwrites the key, `delete` removes it. -/
abbrev Store := List (String × String)

/-- Modelled from the spec: `KVNamespace.get`. -/
def kvGet (st : Store) (k : String) : Option String :=
  (st.find? (fun e => e.1 == k)).map (fun e => e.2)

/-- Modelled from the spec: `KVNamespace.put`. -/
def kvPut (st : Store) (k v : String) : Store :=
  (k, v) :: st.filter (fun e => !(e.1 == k))

/-- Modelled from the spec: `KVNamespace.delete`. -/
def kvDelete (st : Store) (k : String) : Store :=
  st.filter (fun e => !(e.1 == k))

/-- The result of a `put` call as the route observes it: success, or a thrown
error with a message.  Supplied per request to model storage failure. -/
abbrev KVPutF := String → String → Except String Unit

/-- `AI.run` as `part_000` consumes it: the happy path yields a `Response`
whose `arrayBuffer()` is the image bytes; a thrown error carries a message. -/
abbrev AIRunV0 := String → AIOpts → Except String (List Nat)

/-- `AI.run` as `part_001` consumes it: any of the polymorphic shapes, or a
thrown error. -/
abbrev AIRunV1 := String → AIOpts → Except String AIResponse

/-- The value `AI.run` yields to the first worker variant: possibly a nullish
result, or an object whose `image` field may be absent (`none`) or any
string. -/
inductive WResult
  | nullish
  | obj (image : Option String)
deriving DecidableEq, Repr

/-- `AI.run` as the first `src/worker/index.ts` variant consumes it. -/
abbrev AIRunW1 := String → AIOpts → Except String WResult

/-- Everything a `/generate` route invocation produces: the HTTP status and
body, the store after the call, the calls made to the inference capability
(model identifier and options), and the `put` calls attempted on the
key-value store (key, value, optional expiration TTL in seconds). -/
structure RouteOut (β : Type) where
  status : Nat
  body : β
  store : Store
  aiCalls : List (String × AIOpts)
  puts : List (String × String × Option Nat)
deriving Repr

/-- `POST /generate` of `part_000`: validate, run the model on the trimmed
prompt, base64-encode the returned buffer, store it under the trimmed userId
with a 30-day TTL, and answer with a truncated preview.  Any throw from the
`AI.run` or `put` awaits lands in the route's catch, a constant 500. -/
def generateRouteV0 (st : Store) (prompt userId : JSVal) (ai : AIRunV0) (putF : KVPutF) :
    RouteOut RespBodyV0 :=
  match validateGenerate prompt userId with
  | .failed status msg => ⟨status, .err ⟨msg, none⟩, st, [], []⟩
  | .ok sanitizedPrompt sanitizedUserId =>
    let opts : AIOpts := ⟨sanitizedPrompt, none, none, none⟩
    match ai modelSDXL opts with
    | .error _ =>
        ⟨500, .err ⟨"Failed to generate or store image", none⟩, st, [(modelSDXL, opts)], []⟩
    | .ok imageBuffer =>
      let base64Image := arrayBufferToBase64 imageBuffer
      match putF sanitizedUserId base64Image with
      | .error _ =>
          ⟨500, .err ⟨"Failed to generate or store image", none⟩, st, [(modelSDXL, opts)],
            [(sanitizedUserId, base64Image, some 2592000)]⟩
      | .ok _ =>
          ⟨200, .success "Image generated and stored successfully" sanitizedUserId
              (base64Image.take 30 ++ "..."),
            kvPut st sanitizedUserId base64Image, [(modelSDXL, opts)],
            [(sanitizedUserId, base64Image, some 2592000)]⟩

/-- `POST /generate` of `part_001`: validate, run the model on the trimmed
prompt, normalize the polymorphic result (returning the 500 with diagnostic
detail when no shape matches), base64-encode, store with a 30-day TTL, and
answer with a bare data-URI payload.  A thrown `AI.run` or `put` error lands
in the catch, whose body carries the thrown message as `detail`. -/
def generateRouteV1 (st : Store) (prompt userId : JSVal) (ai : AIRunV1) (putF : KVPutF) :
    RouteOut RespBodyV1 :=
  match validateGenerate prompt userId with
  | .failed status msg => ⟨status, .err ⟨msg, none⟩, st, [], []⟩
  | .ok sanitizedPrompt sanitizedUserId =>
    let opts : AIOpts := ⟨sanitizedPrompt, none, none, none⟩
    match ai modelSDXL opts with
    | .error e =>
        ⟨500, .err ⟨"Failed to generate image", some e⟩, st, [(modelSDXL, opts)], []⟩
    | .ok aiResponse =>
      match normalizeV1 aiResponse with
      | .invalid errorDetail =>
          ⟨500, .err ⟨"AI service returned invalid response", some errorDetail⟩, st,
            [(modelSDXL, opts)], []⟩
      | .buffer imageBuffer =>
        let base64Image := arrayBufferToBase64 imageBuffer
        match putF sanitizedUserId base64Image with
        | .error e =>
            ⟨500, .err ⟨"Failed to generate image", some e⟩, st, [(modelSDXL, opts)],
              [(sanitizedUserId, base64Image, some 2592000)]⟩
        | .ok _ =>
            ⟨200, .success ("data:image/png;base64," ++ base64Image),
              kvPut st sanitizedUserId base64Image, [(modelSDXL, opts)],
              [(sanitizedUserId, base64Image, some 2592000)]⟩

/-- The store-independent part of `POST /generate` in the first
`src/worker/index.ts` variant: status, body, the key/value stored on success
(the route never reads the store, so its effect is this optional `put`),
inference calls and attempted puts. -/
structure GenOutcomeW where
  status : Nat
  body : RespBodyW
  stored : Option (String × String)
  aiCalls : List (String × AIOpts)
  puts : List (String × String × Option Nat)
deriving Repr

/-- `POST /generate` of the first `src/worker/index.ts` variant: truthiness
validation, static prompt augmentation, the AI-binding check, `AI.run` with
`flux-1-schnell` and `steps: 8`, the `!aiResponse || !aiResponse.image`
guard (whose throw the catch turns into the constant 500), the KV-binding
check, then an un-TTL'd put and the full-image success payload. -/
def generateW1Core (prompt userId : JSVal) (aiBinding : Option AIRunW1)
    (kvBindingPresent : Bool) (putF : KVPutF) : GenOutcomeW :=
  match validateGenerateW prompt userId with
  | .failed status msg => ⟨status, .err ⟨msg, none⟩, none, [], []⟩
  | .ok p userIdStr =>
    let formattedPrompt := p ++ styleSuffix
    match aiBinding with
    | none => ⟨500, .err ⟨"Service configuration error", none⟩, none, [], []⟩
    | some ai =>
      let opts : AIOpts := ⟨formattedPrompt, some 8, none, none⟩
      match ai modelFlux opts with
      | .error _ =>
          ⟨500, .err ⟨"Failed to generate image", none⟩, none, [(modelFlux, opts)], []⟩
      | .ok aiResponse =>
        match aiResponse with
        | .nullish => ⟨500, .err ⟨"Failed to generate image", none⟩, none, [(modelFlux, opts)], []⟩
        | .obj image =>
          if image.getD "" == "" then
            ⟨500, .err ⟨"Failed to generate image", none⟩, none, [(modelFlux, opts)], []⟩
          else
            let imageData := image.getD ""
            if !kvBindingPresent then
              ⟨500, .err ⟨"Service configuration error", none⟩, none, [(modelFlux, opts)], []⟩
            else
              match putF userIdStr imageData with
              | .error _ =>
                  ⟨500, .err ⟨"Failed to generate image", none⟩, none, [(modelFlux, opts)],
                    [(userIdStr, imageData, none)]⟩
              | .ok _ =>
                  ⟨200, .success "Image generated successfully" userIdStr imageData,
                    some (userIdStr, imageData), [(modelFlux, opts)],
                    [(userIdStr, imageData, none)]⟩

/-- `POST /generate` of the first `src/worker/index.ts` variant, with its
effect applied to the store. -/
def generateRouteW1 (st : Store) (prompt userId : JSVal) (aiBinding : Option AIRunW1)
    (kvBindingPresent : Bool) (putF : KVPutF) : RouteOut RespBodyW :=
  let o := generateW1Core prompt userId aiBinding kvBindingPresent putF
  ⟨o.status, o.body,
    match o.stored with
    | none => st
    | some kv => kvPut st kv.1 kv.2,
    o.aiCalls, o.puts⟩

/-- `GET /image/:userId` of `src/worker/index.ts`: a missing path parameter
is a 400, a missing KV binding a 500, and `if (!image)` — covering both a
missing key and a stored empty string — a 404; otherwise 200 with the stored
value. -/
def getImageRoute (st : Store) (userId : String) (kvBindingPresent : Bool) :
    Nat × RespBodyW :=
  if userId == "" then (400, .err ⟨"User ID is required", none⟩)
  else if !kvBindingPresent then (500, .err ⟨"Service configuration error", none⟩)
  else
    let image := (kvGet st userId).getD ""
    if image == "" then (404, .err ⟨"No image found", none⟩)
    else (200, .getOk image)

/-- `DELETE /image/:userId` of `src/worker/index.ts`: a missing path
parameter is a 400, a missing KV binding a 500; otherwise the key is deleted
(whether or not it exists) and the route answers 200. -/
def deleteImageRoute (st : Store) (userId : String) (kvBindingPresent : Bool) :
    Nat × RespBodyW × Store :=
  if userId == "" then (400, .err ⟨"User ID is required", none⟩, st)
  else if !kvBindingPresent then (500, .err ⟨"Service configuration error", none⟩, st)
  else (200, .deleted "Image deleted successfully", kvDelete st userId)

/-- An operation in a history of the worker service: a `POST /generate`
(with the capabilities it observed), a `DELETE /image/:userId`, or a
TTL expiration performed by the external store. -/
inductive Event
  | generate (prompt : JSVal) (userId : String) (aiBinding : Option AIRunW1)
      (kvBindingPresent : Bool) (putF : KVPutF)
  | deleteImg (userId : String)
  | expire (userId : String)

/-- Effect of one event on the key-value store. -/
def applyEvent (st : Store) : Event → Store
  | .generate p u ai kvb putF => (generateRouteW1 st p (.str u) ai kvb putF).store
  | .deleteImg u => (deleteImageRoute st u true).2.2
  | .expire u => kvDelete st u

/-- Store after a history of operations, starting empty. -/
def runEvents (evs : List Event) : Store := evs.foldl applyEvent []

/-- The event is a successful generate for this userId. -/
def setsFor (u : String) : Event → Prop
  | .generate p uid ai kvb putF => uid = u ∧ (generateW1Core p (.str uid) ai kvb putF).status = 200
  | _ => False

/-- The event removes this userId's artifact (a delete that reaches the
store, or an expiration). -/
def erasesFor (u : String) : Event → Prop
  | .deleteImg uid => uid = u ∧ uid ≠ ""
  | .expire uid => uid = u
  | .generate _ _ _ _ _ => False

/-- Recursive form of "some event sets the key and no later event erases
it". -/
def liveIn (u : String) : List Event → Prop
  | [] => False
  | e :: rest => (setsFor u e ∧ ∀ e2 ∈ rest, ¬ erasesFor u e2) ∨ liveIn u rest

/-- A stub inference capability for concrete runs: always answers a
structured object with a fixed image string. -/
def stubAiW : AIRunW1 := fun _ _ => Except.ok (.obj (some "IMG"))

/-- A stub inference capability for concrete runs of `part_001`: always
answers a `Response` whose buffer is `[1, 2, 3]`. -/
def stubAiV1 : AIRunV1 := fun _ _ => Except.ok (.response [1, 2, 3])

/-- A `put` that always succeeds. -/
def putAlwaysOk : KVPutF := fun _ _ => Except.ok ()

/-- A stub inference capability for concrete runs of `part_000`: always
answers a response whose buffer is `[1, 2, 3]`. -/
def stubAiV0 : AIRunV0 := fun _ _ => Except.ok [1, 2, 3]

/-- Substring occurrence test on character lists. -/
def occursIn (needle hay : List Char) : Bool :=
  (List.range (hay.length + 1)).any (fun i => ((hay.drop i).take needle.length) == needle)

/-- The string leaves of a `part_001` response body (error text, detail,
image payload). -/
def respBodyV1Strings : RespBodyV1 → List String
  | .err e => e.error :: e.detail.toList
  | .success dataImage => [dataImage]

lemma decodeChar_b64char : ∀ n, n < 64 → decodeChar (b64char n) = some n := by decide

lemma b64char_ne_pad : ∀ n, n < 64 → (b64char n == '=') = false := by decide

lemma b64char_mem (n : Nat) : b64char n ∈ b64Chars := by
  unfold b64char
  by_cases h : n < b64Chars.length
  · rw [List.getD_eq_getElem _ _ h]
    exact List.getElem_mem h
  · rw [List.getD_eq_default _ _ (by omega)]
    decide

lemma sextet_div16 (a b : Nat) (hb : b < 256) : (a % 4 * 16 + b / 16) / 16 = a % 4 := by
  rw [Nat.mul_comm (a % 4) 16, Nat.mul_add_div (by norm_num)]
  simp [Nat.div_eq_of_lt (show b / 16 < 16 by omega)]

lemma sextet_mod16 (a b : Nat) (hb : b < 256) : (a % 4 * 16 + b / 16) % 16 = b / 16 := by
  rw [Nat.mul_comm (a % 4) 16, Nat.mul_add_mod]
  exact Nat.mod_eq_of_lt (by omega)

lemma sextet_div4 (b c : Nat) (hc : c < 256) : (b % 16 * 4 + c / 64) / 4 = b % 16 := by
  rw [Nat.mul_comm (b % 16) 4, Nat.mul_add_div (by norm_num)]
  simp [Nat.div_eq_of_lt (show c / 64 < 4 by omega)]

lemma sextet_mod4 (b c : Nat) (hc : c < 256) : (b % 16 * 4 + c / 64) % 4 = c / 64 := by
  rw [Nat.mul_comm (b % 16) 4, Nat.mul_add_mod]
  exact Nat.mod_eq_of_lt (by omega)

/-- Round-trip at the level of character groups. -/
theorem decode_encode : ∀ (bs : List Nat), (∀ b ∈ bs, b < 256) →
    decodeGroups (encodeGroups bs) = some bs
  | [], _ => rfl
  | [a], h => by
      have ha : a < 256 := h a (by simp)
      have h1 : a / 4 < 64 := by omega
      have h2 : a % 4 * 16 < 64 := by omega
      simp only [encodeGroups, decodeGroups, decodeChar_b64char _ h1, decodeChar_b64char _ h2]
      simp only [beq_self_eq_true, List.isEmpty_nil, Bool.and_true, if_true,
        Option.some.injEq, List.cons.injEq, and_true]
      rw [Nat.mul_div_cancel _ (by norm_num)]
      omega
  | [a, b], h => by
      have ha : a < 256 := h a (by simp)
      have hb : b < 256 := h b (by simp)
      have h1 : a / 4 < 64 := by omega
      have h2 : a % 4 * 16 + b / 16 < 64 := by omega
      have h3 : b % 16 * 4 < 64 := by omega
      simp only [encodeGroups, decodeGroups, decodeChar_b64char _ h1, decodeChar_b64char _ h2,
        decodeChar_b64char _ h3, b64char_ne_pad _ h3]
      simp only [Bool.false_eq_true, if_false, beq_self_eq_true, if_true, List.isEmpty_nil,
        Option.some.injEq, List.cons.injEq, and_true]
      rw [sextet_div16 a b hb, sextet_mod16 a b hb, Nat.mul_div_cancel _ (by norm_num)]
      constructor <;> omega
  | a :: b :: c :: rest, h => by
      have ha : a < 256 := h a (by simp)
      have hb : b < 256 := h b (by simp)
      have hc : c < 256 := h c (by simp)
      have h1 : a / 4 < 64 := by omega
      have h2 : a % 4 * 16 + b / 16 < 64 := by omega
      have h3 : b % 16 * 4 + c / 64 < 64 := by omega
      have h4 : c % 64 < 64 := by omega
      have ih := decode_encode rest (fun x hx => h x (by simp [hx]))
      simp only [encodeGroups, decodeGroups, decodeChar_b64char _ h1, decodeChar_b64char _ h2,
        decodeChar_b64char _ h3, decodeChar_b64char _ h4, b64char_ne_pad _ h3,
        b64char_ne_pad _ h4, ih]
      simp only [Bool.false_eq_true, if_false, Option.map_some', Option.some.injEq,
        List.cons.injEq, and_true]
      rw [sextet_div16 a b hb, sextet_mod16 a b hb, sextet_div4 b c hc, sextet_mod4 b c hc]
      refine ⟨by omega, by omega, by omega⟩

/-- Length of the encoded character list: four characters per started group. -/
theorem encodeGroups_length : ∀ bs : List Nat,
    (encodeGroups bs).length = ((bs.length + 2) / 3) * 4
  | [] => rfl
  | [_] => by simp [encodeGroups]
  | [_, _] => by simp [encodeGroups]
  | _ :: _ :: _ :: rest => by
      simp only [encodeGroups, List.length_cons, encodeGroups_length rest]
      omega

/-- Every character the encoder emits is an alphabet character or padding. -/
theorem encodeGroups_chars : ∀ bs : List Nat, ∀ ch ∈ encodeGroups bs,
    ch ∈ b64Chars ∨ ch = '='
  | [], _, hch => by simp [encodeGroups] at hch
  | [a], ch, hch => by
      simp only [encodeGroups, List.mem_cons, List.not_mem_nil, or_false] at hch
      rcases hch with h | h | h | h <;> subst h <;>
        first | exact Or.inl (b64char_mem _) | exact Or.inr rfl
  | [a, b], ch, hch => by
      simp only [encodeGroups, List.mem_cons, List.not_mem_nil, or_false] at hch
      rcases hch with h | h | h | h <;> subst h <;>
        first | exact Or.inl (b64char_mem _) | exact Or.inr rfl
  | a :: b :: c :: rest, ch, hch => by
      simp only [encodeGroups, List.mem_cons] at hch
      rcases hch with h | h | h | h | h
      · exact h ▸ Or.inl (b64char_mem _)
      · exact h ▸ Or.inl (b64char_mem _)
      · exact h ▸ Or.inl (b64char_mem _)
      · exact h ▸ Or.inl (b64char_mem _)
      · exact encodeGroups_chars rest ch h

/-- The encoder is prefix-compatible on whole three-byte groups: bytes are
consumed in order, a group at a time. -/
theorem encodeGroups_append : ∀ (l r : List Nat), l.length % 3 = 0 →
    encodeGroups (l ++ r) = encodeGroups l ++ encodeGroups r
  | [], r, _ => rfl
  | [_], _, h => by simp at h
  | [_, _], _, h => by simp at h
  | a :: b :: c :: rest, r, h => by
      have hr : rest.length % 3 = 0 := by
        simp only [List.length_cons] at h
        omega
      simp only [List.cons_append, encodeGroups, List.append_eq]
      rw [encodeGroups_append rest r hr]

lemma typedArraySet_length (arr chunk : List Nat) (offset : Nat)
    (h : offset + chunk.length ≤ arr.length) :
    (typedArraySet arr chunk offset).length = arr.length := by
  simp [typedArraySet]
  omega

lemma copyChunks_spec : ∀ (chunks : List (List Nat)) (arr : List Nat) (offset : Nat),
    offset + (chunks.map List.length).sum ≤ arr.length →
    copyChunks chunks arr offset =
      arr.take offset ++ chunks.flatten ++ arr.drop (offset + (chunks.map List.length).sum)
  | [], arr, offset, h => by
      simp [copyChunks, List.take_append_drop]
  | chunk :: rest, arr, offset, h => by
      have hsum : (List.map List.length (chunk :: rest)).sum
          = chunk.length + (List.map List.length rest).sum := by simp
      have hlen : offset + chunk.length ≤ arr.length := by
        rw [hsum] at h
        omega
      have hset := typedArraySet_length arr chunk offset hlen
      have ih := copyChunks_spec rest (typedArraySet arr chunk offset) (offset + chunk.length)
        (by rw [hset]; rw [hsum] at h; omega)
      have hl : (arr.take offset ++ chunk).length = offset + chunk.length := by
        simp
        omega
      have htake : (typedArraySet arr chunk offset).take (offset + chunk.length)
          = arr.take offset ++ chunk := by
        rw [typedArraySet]
        exact List.take_left' hl
      have hdrop : ∀ k, (typedArraySet arr chunk offset).drop (offset + chunk.length + k)
          = arr.drop (offset + chunk.length + k) := by
        intro k
        rw [typedArraySet]
        rw [show offset + chunk.length + k = (arr.take offset ++ chunk).length + k by rw [hl]]
        rw [← List.drop_drop, List.drop_left, List.drop_drop, hl]
      rw [copyChunks, ih, htake, hdrop]
      simp only [List.flatten_cons, hsum, ← List.append_assoc]
      congr 1
      congr 1
      omega

/-- `streamToArrayBuffer` returns the in-order concatenation of the chunks. -/
lemma streamToArrayBuffer_eq_flatten (stream : List (List Nat)) :
    streamToArrayBuffer stream = stream.flatten := by
  rw [streamToArrayBuffer]
  rw [copyChunks_spec stream _ 0 (by simp)]
  simp

lemma kvFind_filter_ne (st : Store) (k u : String) (h : k ≠ u) :
    (st.filter (fun e => !(e.1 == k))).find? (fun e => e.1 == u)
      = st.find? (fun e => e.1 == u) := by
  induction st with
  | nil => rfl
  | cons e st ih =>
    by_cases h1 : e.1 = k
    · have hk : (e.1 == k) = true := by simp [h1]
      have hu : (e.1 == u) = false := by simp [h1, h]
      simp [List.filter, List.find?, hk, hu, ih]
    · have hk : (e.1 == k) = false := by simp [h1]
      by_cases h2 : e.1 = u
      · have hu : (e.1 == u) = true := by simp [h2]
        simp [List.filter, List.find?, hk, hu]
      · have hu : (e.1 == u) = false := by simp [h2]
        simp [List.filter, List.find?, hk, hu, ih]

lemma kvGet_kvPut (st : Store) (k v u : String) :
    kvGet (kvPut st k v) u = if k = u then some v else kvGet st u := by
  by_cases h : k = u
  · subst h
    simp [kvGet, kvPut, List.find?]
  · simp only [kvGet, kvPut, List.find?, if_neg h]
    have hk : (k == u) = false := by simp [h]
    simp [hk, kvFind_filter_ne st k u h]

lemma kvGet_kvDelete (st : Store) (k u : String) :
    kvGet (kvDelete st k) u = if k = u then none else kvGet st u := by
  by_cases h : k = u
  · subst h
    simp only [kvGet, kvDelete, if_pos rfl]
    induction st with
    | nil => rfl
    | cons e st ih =>
      by_cases h1 : e.1 = k
      · have hk : (e.1 == k) = true := by simp [h1]
        simp [List.filter, hk, ih]
      · have hk : (e.1 == k) = false := by simp [h1]
        simp [List.filter, List.find?, hk, ih]
  · simp only [kvGet, kvDelete, if_neg h]
    rw [kvFind_filter_ne st k u h]

lemma kvDelete_of_absent (st : Store) (u : String) (h : kvGet st u = none) :
    kvDelete st u = st := by
  rw [kvGet, Option.map_eq_none'] at h
  rw [kvDelete, List.filter_eq_self]
  intro e he
  have hfind := List.find?_eq_none.mp h e he
  simpa using hfind

lemma validateGenerateW_failed (prompt userId : JSVal) (s : Nat) (m : String)
    (h : validateGenerateW prompt userId = .failed s m) : s = 400 := by
  unfold validateGenerateW at h
  split at h
  · cases h
    rfl
  · cases h

lemma validateGenerateW_ok (prompt userId : JSVal) (p u : String)
    (h : validateGenerateW prompt userId = .ok p u) :
    p = jsToString prompt ∧ u = jsToString userId ∧
      truthy prompt = true ∧ truthy userId = true := by
  unfold validateGenerateW at h
  split at h
  · cases h
  · cases h
    rename_i hcond
    simp only [Bool.or_eq_true, Bool.not_eq_true', not_or, Bool.not_eq_false] at hcond
    exact ⟨rfl, rfl, hcond.1, hcond.2⟩

lemma validateGenerate_failed (prompt userId : JSVal) (s : Nat) (m : String)
    (h : validateGenerate prompt userId = .failed s m) : s = 400 := by
  unfold validateGenerate at h
  split at h
  · cases h
    rfl
  · split at h
    · cases h
      rfl
    · cases h

lemma generateW1Core_cases (prompt userId : JSVal) (ai : Option AIRunW1) (kvb : Bool)
    (putF : KVPutF) :
    (∃ v, v ≠ "" ∧
       (generateW1Core prompt userId ai kvb putF).status = 200 ∧
       (generateW1Core prompt userId ai kvb putF).stored = some (jsToString userId, v) ∧
       (generateW1Core prompt userId ai kvb putF).body
         = .success "Image generated successfully" (jsToString userId) v ∧
       truthy userId = true)
  ∨ ((generateW1Core prompt userId ai kvb putF).status ≠ 200 ∧
       (generateW1Core prompt userId ai kvb putF).stored = none) := by
  unfold generateW1Core
  rcases hval : validateGenerateW prompt userId with ⟨s, m⟩ | ⟨p, u⟩
  · have hs := validateGenerateW_failed _ _ _ _ hval
    subst hs
    right
    exact ⟨(by decide : (400 : Nat) ≠ 200), rfl⟩
  · obtain ⟨hp, hu, _, htu⟩ := validateGenerateW_ok _ _ _ _ hval
    subst hp
    subst hu
    cases ai with
    | none =>
        right
        exact ⟨(by decide : (500 : Nat) ≠ 200), rfl⟩
    | some aiF =>
        rcases hai : aiF modelFlux ⟨jsToString prompt ++ styleSuffix, some 8, none, none⟩
          with e | res
        · right
          refine ⟨?_, ?_⟩ <;> simp [hai]
        · cases res with
          | nullish =>
              right
              refine ⟨?_, ?_⟩ <;> simp [hai]
          | obj image =>
              by_cases himg : (image.getD "" == "") = true
              · right
                refine ⟨?_, ?_⟩ <;> simp [hai, himg]
              · have himg' : (image.getD "" == "") = false := by
                  cases hq : (image.getD "" == "") <;> simp_all
                cases kvb with
                | false =>
                    right
                    refine ⟨?_, ?_⟩ <;> simp [hai, himg']
                | true =>
                    rcases hput : putF (jsToString userId) (image.getD "") with e | u2
                    · right
                      refine ⟨?_, ?_⟩ <;> simp [hai, himg', hput]
                    · left
                      refine ⟨image.getD "", by simpa using himg', ?_, ?_, ?_, htu⟩ <;>
                        simp [hai, himg', hput]

lemma generateRouteW1_store (st : Store) (prompt userId : JSVal) (ai : Option AIRunW1)
    (kvb : Bool) (putF : KVPutF) :
    (generateRouteW1 st prompt userId ai kvb putF).store
      = match (generateW1Core prompt userId ai kvb putF).stored with
        | none => st
        | some kv => kvPut st kv.1 kv.2 := rfl

lemma foldl_live (u : String) : ∀ (evs : List Event) (st : Store),
    ((kvGet (evs.foldl applyEvent st) u).isSome = true ↔
      (liveIn u evs ∨ ((kvGet st u).isSome = true ∧ ∀ e ∈ evs, ¬ erasesFor u e))) := by
  intro evs
  induction evs with
  | nil =>
      intro st
      simp [liveIn]
  | cons e rest ih =>
      intro st
      rw [List.foldl_cons, ih (applyEvent st e)]
      simp only [liveIn, List.forall_mem_cons]
      cases e with
      | generate p uid ai kvb putF =>
          have herase : ¬ erasesFor u (.generate p uid ai kvb putF) := by simp [erasesFor]
          rcases generateW1Core_cases p (.str uid) ai kvb putF with
            ⟨v, hv, hst, hstored, _, _⟩ | ⟨hst, hstored⟩
          · have happ : applyEvent st (.generate p uid ai kvb putF) = kvPut st uid v := by
              simp [applyEvent, generateRouteW1, hstored, jsToString]
            rw [happ, kvGet_kvPut]
            by_cases hueq : uid = u
            · have hsetsT : setsFor u (.generate p uid ai kvb putF) := ⟨hueq, hst⟩
              simp only [if_pos hueq, Option.isSome_some]
              tauto
            · have hsetsF : ¬ setsFor u (.generate p uid ai kvb putF) := by
                intro hs
                exact hueq hs.1
              simp only [if_neg hueq]
              tauto
          · have happ : applyEvent st (.generate p uid ai kvb putF) = st := by
              simp [applyEvent, generateRouteW1, hstored]
            have hsetsF : ¬ setsFor u (.generate p uid ai kvb putF) := by
              intro hs
              exact hst hs.2
            rw [happ]
            tauto
      | deleteImg uid =>
          have hsets : ¬ setsFor u (.deleteImg uid) := by simp [setsFor]
          by_cases hnil : uid = ""
          · have happ : applyEvent st (.deleteImg uid) = st := by
              simp [applyEvent, deleteImageRoute, hnil]
            have herase : ¬ erasesFor u (.deleteImg uid) := by
              rintro ⟨-, h2⟩
              exact h2 hnil
            rw [happ]
            tauto
          · have happ : applyEvent st (.deleteImg uid) = kvDelete st uid := by
              have : (uid == "") = false := by simp [hnil]
              simp [applyEvent, deleteImageRoute, this]
            rw [happ, kvGet_kvDelete]
            by_cases hueq : uid = u
            · have herase : erasesFor u (.deleteImg uid) := ⟨hueq, hnil⟩
              simp only [if_pos hueq, Option.isSome_none, Bool.false_eq_true, false_and]
              tauto
            · have herase : ¬ erasesFor u (.deleteImg uid) := by
                simp [erasesFor, hueq]
              simp only [if_neg hueq]
              tauto
      | expire uid =>
          have hsets : ¬ setsFor u (.expire uid) := by simp [setsFor]
          have happ : applyEvent st (.expire uid) = kvDelete st uid := rfl
          rw [happ, kvGet_kvDelete]
          by_cases hueq : uid = u
          · have herase : erasesFor u (.expire uid) := hueq
            simp only [if_pos hueq, Option.isSome_none, Bool.false_eq_true, false_and]
            tauto
          · have herase : ¬ erasesFor u (.expire uid) := hueq
            simp only [if_neg hueq]
            tauto

lemma liveIn_iff (u : String) : ∀ evs : List Event,
    liveIn u evs ↔
      ∃ pre e post, evs = pre ++ e :: post ∧ setsFor u e ∧ ∀ e2 ∈ post, ¬ erasesFor u e2 := by
  intro evs
  induction evs with
  | nil =>
      constructor
      · intro h
        exact absurd h (by simp [liveIn])
      · rintro ⟨pre, e, post, h, -, -⟩
        exact absurd h (by simp)
  | cons e rest ih =>
      constructor
      · intro h
        rcases h with ⟨hset, hpost⟩ | h
        · exact ⟨[], e, rest, rfl, hset, hpost⟩
        · obtain ⟨pre, e2, post, heq, hset, hpost⟩ := ih.mp h
          exact ⟨e :: pre, e2, post, by rw [heq, List.cons_append], hset, hpost⟩
      · rintro ⟨pre, e2, post, heq, hset, hpost⟩
        cases pre with
        | nil =>
            simp only [List.nil_append] at heq
            cases heq
            exact Or.inl ⟨hset, hpost⟩
        | cons p pre2 =>
            simp only [List.cons_append, List.cons.injEq] at heq
            obtain ⟨he, hrest⟩ := heq
            exact Or.inr (ih.mpr ⟨pre2, e2, post, hrest, hset, hpost⟩)

lemma trim_empty : jsTrim "" = "" := by decide

lemma fieldCond_iff (v : JSVal) :
    (!truthy v || !isStr v || (jsTrim (jsStr v) == "")) = true ↔
      ¬(isStr v = true ∧ jsTrim (jsStr v) ≠ "") := by
  cases v with
  | str s =>
      by_cases hs : s = ""
      · subst hs
        simp [truthy, isStr, jsStr, trim_empty]
      · by_cases ht : jsTrim s = ""
        · simp [truthy, isStr, jsStr, hs, ht]
        · simp [truthy, isStr, jsStr, hs, ht]
  | num n => simp [truthy, isStr, jsStr]
  | boolean b => simp [truthy, isStr, jsStr]
  | jsNull => simp [truthy, isStr, jsStr]
  | undef => simp [truthy, isStr, jsStr]
  | obj => simp [truthy, isStr, jsStr]
  | arr => simp [truthy, isStr, jsStr]

lemma validateGenerate_ok (prompt userId : JSVal) (p u : String)
    (h : validateGenerate prompt userId = .ok p u) :
    p = jsTrim (jsStr prompt) ∧ u = jsTrim (jsStr userId) ∧
      isStr prompt = true ∧ jsTrim (jsStr prompt) ≠ "" ∧
      isStr userId = true ∧ jsTrim (jsStr userId) ≠ "" := by
  unfold validateGenerate at h
  split at h
  · cases h
  · split at h
    · cases h
    · cases h
      rename_i hcp hcu
      have hgp := (not_iff_not.mpr (fieldCond_iff prompt)).mp hcp
      have hgu := (not_iff_not.mpr (fieldCond_iff userId)).mp hcu
      rw [not_not] at hgp hgu
      exact ⟨rfl, rfl, hgp.1, hgp.2, hgu.1, hgu.2⟩

lemma validateGenerate_ok_of_good (prompt userId : JSVal)
    (hp : isStr prompt = true ∧ jsTrim (jsStr prompt) ≠ "")
    (hu : isStr userId = true ∧ jsTrim (jsStr userId) ≠ "") :
    validateGenerate prompt userId = .ok (jsTrim (jsStr prompt)) (jsTrim (jsStr userId)) := by
  unfold validateGenerate
  rw [if_neg (fun hc => (fieldCond_iff prompt).mp hc hp),
    if_neg (fun hc => (fieldCond_iff userId).mp hc hu)]

/-- C1: for every byte buffer, applying the encoder `arrayBufferToBase64`
and then standard base64 decoding reproduces the exact original bytes —
including empty buffers and lengths that are not multiples of three.  The
hypothesis states that the input is a byte buffer (each element below 256,
as every `Uint8Array` element is). -/
theorem base64_roundtrip (buffer : List Nat) (h : ∀ b ∈ buffer, b < 256) :
    base64Decode (arrayBufferToBase64 buffer) = some buffer := by
  rw [base64Decode, arrayBufferToBase64, btoa]
  exact decode_encode buffer h

theorem base64_roundtrip_witness :
    ((∀ b ∈ [255, 0, 1, 2], b < 256) ∧
        base64Decode (arrayBufferToBase64 [255, 0, 1, 2]) = some [255, 0, 1, 2]) ∧
      ((∀ b ∈ ([] : List Nat), b < 256) ∧
        base64Decode (arrayBufferToBase64 []) = some []) :=
  ⟨⟨by decide, base64_roundtrip [255, 0, 1, 2] (by decide)⟩,
   ⟨by decide, base64_roundtrip [] (by decide)⟩⟩

/-- C7: `streamToArrayBuffer` drains the stream and returns the in-order,
byte-for-byte concatenation of all its chunks, whose length is the sum of
the chunk lengths. -/
theorem stream_drain_spec (chunks : List (List Nat)) :
    streamToArrayBuffer chunks = chunks.flatten ∧
      (streamToArrayBuffer chunks).length = (chunks.map List.length).sum := by
  refine ⟨streamToArrayBuffer_eq_flatten chunks, ?_⟩
  rw [streamToArrayBuffer_eq_flatten, List.length_flatten]

/-- C8: the encoder emits only standard-alphabet characters and `=` padding,
its output length is exactly `ceil(n/3)*4` for `n` input bytes, and it
consumes bytes in order (it is prefix-compatible on whole three-byte
groups). -/
theorem encoder_length_alphabet (buffer : List Nat) :
    (arrayBufferToBase64 buffer).length = ((buffer.length + 2) / 3) * 4 ∧
      (∀ ch ∈ (arrayBufferToBase64 buffer).data, ch ∈ b64Chars ∨ ch = '=') ∧
      (∀ l r : List Nat, l.length % 3 = 0 →
        arrayBufferToBase64 (l ++ r) = arrayBufferToBase64 l ++ arrayBufferToBase64 r) := by
  refine ⟨?_, ?_, ?_⟩
  · show (encodeGroups buffer).length = ((buffer.length + 2) / 3) * 4
    exact encodeGroups_length buffer
  · show ∀ ch ∈ encodeGroups buffer, ch ∈ b64Chars ∨ ch = '='
    exact encodeGroups_chars buffer
  · intro l r hl
    show String.mk (encodeGroups (l ++ r)) = String.mk (encodeGroups l) ++ String.mk (encodeGroups r)
    rw [encodeGroups_append l r hl]
    rfl

theorem encoder_length_alphabet_witness :
    ([1, 2, 3].length % 3 = 0 ∧
      arrayBufferToBase64 ([1, 2, 3] ++ [4, 5]) =
        arrayBufferToBase64 [1, 2, 3] ++ arrayBufferToBase64 [4, 5]) ∧
    (arrayBufferToBase64 [1, 2, 3, 4, 5]).length = (([1, 2, 3, 4, 5] : List Nat).length + 2) / 3 * 4 :=
  ⟨⟨by decide, (encoder_length_alphabet [1, 2, 3]).2.2 [1, 2, 3] [4, 5] (by decide)⟩,
   (encoder_length_alphabet [1, 2, 3, 4, 5]).1⟩

/-- C2 counterexample: the `src/worker/index.ts` variant of `/generate`
validation — one of the claim's cited sources — accepts a whitespace-only
prompt (its check is truthiness only) and passes the untrimmed value on, so
validation succeeding is not equivalent to the fields being non-empty after
trimming. -/
theorem validation_claim_counterexample :
    validateGenerateW (.str " ") (.str "u1") = .ok " " "u1" ∧ jsTrim " " = "" :=
  ⟨rfl, rfl⟩

/-- C2 (amended): in the `part_000`/`part_001` validator, validation succeeds
exactly when both `prompt` and `userId` are strings that are non-empty after
trimming; each failure is a 400 whose message names the offending field
(prompt checked first); success returns the trimmed values.  The
`src/worker/index.ts` variant instead only requires both fields truthy. -/
theorem validation_spec (prompt userId : JSVal) :
    (validateGenerate prompt userId
        = .ok (jsTrim (jsStr prompt)) (jsTrim (jsStr userId)) ↔
      ((isStr prompt = true ∧ jsTrim (jsStr prompt) ≠ "") ∧
        (isStr userId = true ∧ jsTrim (jsStr userId) ≠ ""))) ∧
    (∀ p u, validateGenerate prompt userId = .ok p u →
        p = jsTrim (jsStr prompt) ∧ u = jsTrim (jsStr userId)) ∧
    (validateGenerate prompt userId
        = .failed 400 "Prompt is required and must be a non-empty string" ↔
      ¬(isStr prompt = true ∧ jsTrim (jsStr prompt) ≠ "")) ∧
    (validateGenerate prompt userId
        = .failed 400 "userId is required and must be a non-empty string" ↔
      ((isStr prompt = true ∧ jsTrim (jsStr prompt) ≠ "") ∧
        ¬(isStr userId = true ∧ jsTrim (jsStr userId) ≠ ""))) := by
  have hmsg : ("Prompt is required and must be a non-empty string" : String)
      ≠ "userId is required and must be a non-empty string" := by decide
  by_cases hp : (!truthy prompt || !isStr prompt || (jsTrim (jsStr prompt) == "")) = true
  · have hbad := (fieldCond_iff prompt).mp hp
    have hveq : validateGenerate prompt userId
        = .failed 400 "Prompt is required and must be a non-empty string" := by
      unfold validateGenerate
      rw [if_pos hp]
    rw [hveq]
    refine ⟨by simp [hbad], ?_, by simp [hbad], by simp [hmsg, hbad]⟩
    intro p u h
    cases h
  · have hgp : isStr prompt = true ∧ jsTrim (jsStr prompt) ≠ "" := by
      by_contra hc
      exact hp ((fieldCond_iff prompt).mpr hc)
    by_cases hu : (!truthy userId || !isStr userId || (jsTrim (jsStr userId) == "")) = true
    · have hbadu := (fieldCond_iff userId).mp hu
      have hveq : validateGenerate prompt userId
          = .failed 400 "userId is required and must be a non-empty string" := by
        unfold validateGenerate
        rw [if_neg hp, if_pos hu]
      rw [hveq]
      refine ⟨by simp [hbadu], ?_, by simp [Ne.symm hmsg, hgp.1, hgp.2],
        by simp [hgp.1, hgp.2, hbadu]⟩
      intro p u h
      cases h
    · have hgu : isStr userId = true ∧ jsTrim (jsStr userId) ≠ "" := by
        by_contra hc
        exact hu ((fieldCond_iff userId).mpr hc)
      have hveq : validateGenerate prompt userId
          = .ok (jsTrim (jsStr prompt)) (jsTrim (jsStr userId)) := by
        unfold validateGenerate
        rw [if_neg hp, if_neg hu]
      rw [hveq]
      refine ⟨by simp [hgp.1, hgp.2, hgu.1, hgu.2], ?_,
        by simp [hgp.1, hgp.2], by simp [hgu.1, hgu.2]⟩
      intro p u h
      simp only [Validated.ok.injEq] at h
      exact ⟨h.1.symm, h.2.symm⟩

theorem validation_spec_witness :
    ((isStr (JSVal.str " hi ") = true ∧ jsTrim (jsStr (JSVal.str " hi ")) ≠ "") ∧
      (isStr (JSVal.str "u1") = true ∧ jsTrim (jsStr (JSVal.str "u1")) ≠ "")) ∧
    validateGenerate (.str " hi ") (.str "u1")
      = .ok (jsTrim (jsStr (JSVal.str " hi "))) (jsTrim (jsStr (JSVal.str "u1"))) :=
  ⟨⟨⟨rfl, by decide⟩, ⟨rfl, by decide⟩⟩,
    (validation_spec (.str " hi ") (.str "u1")).1.mpr ⟨⟨rfl, by decide⟩, ⟨rfl, by decide⟩⟩⟩

/-- C3 counterexample: `part_001`'s normalization — the claim's cited code —
maps a structured payload carrying an image field to the invalid-response
error, not to a buffer, so the third tolerated shape is not handled there. -/
theorem normalize_claim_counterexample :
    normalizeV1 (.structured [("image", "iVBORw0KGgo")]) = .invalid "[object Object]" := rfl

/-- C3 (amended): `part_001`'s invoker tries, in order, only the byte-stream
shape (drained in order into a contiguous buffer) and the response-like
shape (buffer accessor); every other shape — structured payloads included —
is reported as an invalid upstream response with a best-effort detail
string.  The structured-payload extraction (image field) lives in the
`src/worker/index.ts` variant, which stores exactly the extracted field. -/
theorem normalize_spec :
    (∀ chunks, normalizeV1 (.stream chunks) = .buffer chunks.flatten) ∧
    (∀ buffer, normalizeV1 (.response buffer) = .buffer buffer) ∧
    (∀ fields, normalizeV1 (.structured fields) = .invalid "[object Object]") ∧
    (∀ n, normalizeV1 (.num n) = .invalid (toString n)) ∧
    (∀ s, normalizeV1 (.str s) = .invalid s) ∧
    (∀ (prompt userId : JSVal) (img : String) (putF : KVPutF) (p u : String),
      img ≠ "" → validateGenerateW prompt userId = .ok p u →
      (generateW1Core prompt userId (some (fun _ _ => Except.ok (.obj (some img)))) true
          putF).puts = [(u, img, none)]) := by
  refine ⟨?_, fun _ => rfl, fun _ => rfl, fun _ => rfl, fun _ => rfl, ?_⟩
  · intro chunks
    simp [normalizeV1, streamToArrayBuffer_eq_flatten]
  · intro prompt userId img putF p u himg hval
    have himg' : (img == "") = false := by simpa using himg
    rcases hput : putF u img with e | x <;>
      simp [generateW1Core, hval, hput, himg']

theorem normalize_spec_witness :
    (("IMG" : String) ≠ "" ∧
      validateGenerateW (.str "p") (.str "u1") = .ok "p" "u1") ∧
    (generateW1Core (.str "p") (.str "u1")
        (some (fun _ _ => Except.ok (.obj (some "IMG")))) true putAlwaysOk).puts
      = [("u1", "IMG", none)] :=
  ⟨⟨by decide, rfl⟩,
    normalize_spec.2.2.2.2.2 (.str "p") (.str "u1") "IMG" putAlwaysOk "p" "u1" (by decide) rfl⟩

/-- C4: when the inference capability returns a bare number, `part_001`'s
pipeline answers 500 with the invalid-upstream error and the serialized
payload as diagnostic detail, leaves the store unchanged, and never calls
the key-value store's put. -/
theorem upstream_number_rejected (st : Store) (prompt userId : JSVal) (n : Int)
    (putF : KVPutF) (p u : String)
    (hval : validateGenerate prompt userId = .ok p u) :
    generateRouteV1 st prompt userId (fun _ _ => Except.ok (.num n)) putF =
      ⟨500, .err ⟨"AI service returned invalid response", some (toString n)⟩, st,
        [(modelSDXL, ⟨p, none, none, none⟩)], []⟩ := by
  unfold generateRouteV1
  rw [hval]
  rfl

theorem upstream_number_rejected_witness :
    validateGenerate (.str "p") (.str "u1") = .ok "p" "u1" ∧
    generateRouteV1 [] (.str "p") (.str "u1") (fun _ _ => Except.ok (.num 7)) putAlwaysOk =
      ⟨500, .err ⟨"AI service returned invalid response", some (toString (7 : Int))⟩, [],
        [(modelSDXL, ⟨"p", none, none, none⟩)], []⟩ :=
  ⟨rfl, upstream_number_rejected [] (.str "p") (.str "u1") 7 putAlwaysOk "p" "u1" rfl⟩

/-- C10: when the value stored for a userId is the empty string, the GET
route's `!image` test treats the artifact as absent and answers 404 with the
not-found payload instead of 200. -/
theorem empty_artifact_not_found (st : Store) (u : String) (hu : u ≠ "")
    (h : kvGet st u = some "") :
    getImageRoute st u true = (404, .err ⟨"No image found", none⟩) := by
  have hbne : (u == "") = false := by simpa using hu
  simp [getImageRoute, hbne, h]

theorem empty_artifact_not_found_witness :
    (("u1" : String) ≠ "" ∧ kvGet [("u1", "")] "u1" = some "") ∧
      getImageRoute [("u1", "")] "u1" true = (404, .err ⟨"No image found", none⟩) :=
  ⟨⟨by decide, rfl⟩, empty_artifact_not_found [("u1", "")] "u1" (by decide) rfl⟩

/-- C6: over any history of generate/delete/expire operations starting from
an empty store, an artifact exists for a userId exactly when some successful
generate for it is not followed by a delete or expiration; a GET right after
a successful generate is a 200 carrying the stored value exactly; a GET
right after a DELETE is a 404 with the not-found payload; and a DELETE on a
nonexistent key still succeeds with 200 and leaves the store unchanged. -/
theorem kv_lifecycle :
    (∀ (evs : List Event) (u : String),
      (kvGet (runEvents evs) u).isSome = true ↔
        ∃ pre e post, evs = pre ++ e :: post ∧ setsFor u e ∧
          ∀ e2 ∈ post, ¬ erasesFor u e2) ∧
    (∀ (st : Store) (prompt : JSVal) (u : String) (ai : Option AIRunW1) (kvb : Bool)
        (putF : KVPutF),
      (generateRouteW1 st prompt (.str u) ai kvb putF).status = 200 →
      ∃ v, v ≠ "" ∧
        kvGet (generateRouteW1 st prompt (.str u) ai kvb putF).store u = some v ∧
        getImageRoute (generateRouteW1 st prompt (.str u) ai kvb putF).store u true
          = (200, .getOk v)) ∧
    (∀ (st : Store) (u : String), u ≠ "" →
      getImageRoute (deleteImageRoute st u true).2.2 u true
        = (404, .err ⟨"No image found", none⟩)) ∧
    (∀ (st : Store) (u : String), u ≠ "" → kvGet st u = none →
      deleteImageRoute st u true = (200, .deleted "Image deleted successfully", st)) := by
  refine ⟨?_, ?_, ?_, ?_⟩
  · intro evs u
    unfold runEvents
    rw [foldl_live u evs [], liveIn_iff u evs]
    simp [kvGet]
  · intro st prompt u ai kvb putF hst
    rcases generateW1Core_cases prompt (.str u) ai kvb putF with
      ⟨v, hv, h200, hstored, hbody, htu⟩ | ⟨hne, hstored⟩
    · have hu : u ≠ "" := by simpa [truthy] using htu
      have hbne : (u == "") = false := by simpa using hu
      have hvbne : (v == "") = false := by simpa using hv
      refine ⟨v, hv, ?_, ?_⟩
      · simp [generateRouteW1_store, hstored, jsToString, kvGet_kvPut]
      · simp [getImageRoute, hbne, generateRouteW1_store, hstored, jsToString,
          kvGet_kvPut, hvbne]
    · exact absurd hst hne
  · intro st u hu
    have hbne : (u == "") = false := by simpa using hu
    simp [deleteImageRoute, getImageRoute, hbne, kvGet_kvDelete]
  · intro st u hu habs
    have hbne : (u == "") = false := by simpa using hu
    simp [deleteImageRoute, hbne, kvDelete_of_absent st u habs]

theorem kv_lifecycle_witness :
    (generateRouteW1 [] (.str "a red cube") (.str "u1") (some stubAiW) true
        putAlwaysOk).status = 200 ∧
      ∃ v, v ≠ "" ∧
        kvGet (generateRouteW1 [] (.str "a red cube") (.str "u1") (some stubAiW) true
            putAlwaysOk).store "u1" = some v ∧
        getImageRoute (generateRouteW1 [] (.str "a red cube") (.str "u1") (some stubAiW) true
            putAlwaysOk).store "u1" true = (200, .getOk v) :=
  ⟨rfl, kv_lifecycle.2.1 [] (.str "a red cube") "u1" (some stubAiW) true putAlwaysOk rfl⟩

lemma generateW1Core_aiCalls (prompt userId : JSVal) (ai : Option AIRunW1) (kvb : Bool)
    (putF : KVPutF) :
    (generateW1Core prompt userId ai kvb putF).aiCalls = [] ∨
    (generateW1Core prompt userId ai kvb putF).aiCalls
      = [(modelFlux, ⟨jsToString prompt ++ styleSuffix, some 8, none, none⟩)] := by
  unfold generateW1Core
  rcases hval : validateGenerateW prompt userId with ⟨s, m⟩ | ⟨p, u⟩
  · left
    rfl
  · obtain ⟨hp, hu, -, -⟩ := validateGenerateW_ok _ _ _ _ hval
    subst hp
    subst hu
    cases ai with
    | none =>
        left
        rfl
    | some aiF =>
        rcases hai : aiF modelFlux ⟨jsToString prompt ++ styleSuffix, some 8, none, none⟩
          with e | res
        · right
          simp [hai]
        · cases res with
          | nullish =>
              right
              simp [hai]
          | obj image =>
              by_cases himg : (image.getD "" == "") = true
              · right
                simp [hai, himg]
              · have himg' : (image.getD "" == "") = false := by
                  cases hq : (image.getD "" == "") <;> simp_all
                cases kvb with
                | false =>
                    right
                    simp [hai, himg']
                | true =>
                    rcases hput : putF (jsToString userId) (image.getD "") with e | x
                    · right
                      simp [hai, himg', hput]
                    · right
                      simp [hai, himg', hput]

lemma generateRouteV1_aiCalls (st : Store) (prompt userId : JSVal) (ai : AIRunV1)
    (putF : KVPutF) :
    (generateRouteV1 st prompt userId ai putF).aiCalls = [] ∨
    (generateRouteV1 st prompt userId ai putF).aiCalls
      = [(modelSDXL, ⟨jsTrim (jsStr prompt), none, none, none⟩)] := by
  unfold generateRouteV1
  rcases hval : validateGenerate prompt userId with ⟨s, m⟩ | ⟨p, u⟩
  · left
    rfl
  · obtain ⟨hp, hu, -, -, -, -⟩ := validateGenerate_ok _ _ _ _ hval
    subst hp
    subst hu
    rcases hai : ai modelSDXL ⟨jsTrim (jsStr prompt), none, none, none⟩ with e | res
    · right
      simp [hai]
    · rcases hnorm : normalizeV1 res with buf | det
      · rcases hput : putF (jsTrim (jsStr userId)) (arrayBufferToBase64 buf) with e | x
        · right
          simp [hai, hnorm, hput]
        · right
          simp [hai, hnorm, hput]
      · right
        simp [hai, hnorm]

lemma generateRouteV0_aiCalls (st : Store) (prompt userId : JSVal) (ai : AIRunV0)
    (putF : KVPutF) :
    (generateRouteV0 st prompt userId ai putF).aiCalls = [] ∨
    (generateRouteV0 st prompt userId ai putF).aiCalls
      = [(modelSDXL, ⟨jsTrim (jsStr prompt), none, none, none⟩)] := by
  unfold generateRouteV0
  rcases hval : validateGenerate prompt userId with ⟨s, m⟩ | ⟨p, u⟩
  · left
    rfl
  · obtain ⟨hp, hu, -, -, -, -⟩ := validateGenerate_ok _ _ _ _ hval
    subst hp
    subst hu
    rcases hai : ai modelSDXL ⟨jsTrim (jsStr prompt), none, none, none⟩ with e | buf
    · right
      simp [hai]
    · rcases hput : putF (jsTrim (jsStr userId)) (arrayBufferToBase64 buf) with e | x
      · right
        simp [hai, hput]
      · right
        simp [hai, hput]

/-- C9 counterexample: the first `src/worker/index.ts` variant — one of the
claim's cited sources — passes the raw, untrimmed prompt (template-literal
interpolation) followed by the fixed suffix; for the prompt " x " the string
handed to the inference capability is neither the trimmed prompt plus the
suffix nor the trimmed prompt alone. -/
theorem inference_constants_counterexample :
    (generateW1Core (.str " x ") (.str "u1") (some stubAiW) true putAlwaysOk).aiCalls
      = [(modelFlux, ⟨" x " ++ styleSuffix, some 8, none, none⟩)] ∧
    " x " ++ styleSuffix ≠ jsTrim " x " ++ styleSuffix ∧
    " x " ++ styleSuffix ≠ jsTrim " x " := by
  refine ⟨rfl, ?_, ?_⟩ <;> decide

/-- C9 (amended): in every variant the model identifier and the tuning
parameters handed to the inference capability are fixed constants,
independent of the request body; the prompt passed is obtained by plain
string concatenation — the trimmed user prompt with no suffix in
`part_000`/`part_001`, and the raw (untrimmed) user prompt followed by the
fixed style/negative-prompt suffix in the worker variant. -/
theorem inference_constants :
    (∀ (prompt userId : JSVal) (ai : Option AIRunW1) (kvb : Bool) (putF : KVPutF),
      ∀ call ∈ (generateW1Core prompt userId ai kvb putF).aiCalls,
        call.1 = modelFlux ∧ call.2.steps = some 8 ∧ call.2.numInferenceSteps = none ∧
          call.2.guidanceScale = none ∧ call.2.prompt = jsToString prompt ++ styleSuffix) ∧
    (∀ (st : Store) (prompt userId : JSVal) (ai : AIRunV1) (putF : KVPutF),
      ∀ call ∈ (generateRouteV1 st prompt userId ai putF).aiCalls,
        call.1 = modelSDXL ∧ call.2 = ⟨jsTrim (jsStr prompt), none, none, none⟩) ∧
    (∀ (st : Store) (prompt userId : JSVal) (ai : AIRunV0) (putF : KVPutF),
      ∀ call ∈ (generateRouteV0 st prompt userId ai putF).aiCalls,
        call.1 = modelSDXL ∧ call.2 = ⟨jsTrim (jsStr prompt), none, none, none⟩) := by
  refine ⟨?_, ?_, ?_⟩
  · intro prompt userId ai kvb putF call hcall
    rcases generateW1Core_aiCalls prompt userId ai kvb putF with h | h <;> rw [h] at hcall
    · simp at hcall
    · simp only [List.mem_singleton] at hcall
      subst hcall
      exact ⟨rfl, rfl, rfl, rfl, rfl⟩
  · intro st prompt userId ai putF call hcall
    rcases generateRouteV1_aiCalls st prompt userId ai putF with h | h <;> rw [h] at hcall
    · simp at hcall
    · simp only [List.mem_singleton] at hcall
      subst hcall
      exact ⟨rfl, rfl⟩
  · intro st prompt userId ai putF call hcall
    rcases generateRouteV0_aiCalls st prompt userId ai putF with h | h <;> rw [h] at hcall
    · simp at hcall
    · simp only [List.mem_singleton] at hcall
      subst hcall
      exact ⟨rfl, rfl⟩

theorem inference_constants_witness :
    ((modelFlux, (⟨jsToString (JSVal.str "p") ++ styleSuffix, some 8, none, none⟩ : AIOpts))
        ∈ (generateW1Core (.str "p") (.str "u1") (some stubAiW) true putAlwaysOk).aiCalls) ∧
    (modelFlux, (⟨jsToString (JSVal.str "p") ++ styleSuffix, some 8, none, none⟩ : AIOpts)).1
        = modelFlux := by
  have hmem : (modelFlux,
      (⟨jsToString (JSVal.str "p") ++ styleSuffix, some 8, none, none⟩ : AIOpts))
      ∈ (generateW1Core (.str "p") (.str "u1") (some stubAiW) true putAlwaysOk).aiCalls := by
    show _ ∈ [(modelFlux,
      (⟨jsToString (JSVal.str "p") ++ styleSuffix, some 8, none, none⟩ : AIOpts))]
    exact List.mem_singleton.mpr rfl
  exact ⟨hmem,
    (inference_constants.1 (.str "p") (.str "u1") (some stubAiW) true putAlwaysOk _ hmem).1⟩

/-- C5 counterexample: a successful `part_001` generate answers 200, but its
payload carries only the data-URI image object; the userId ("zz77") occurs
in no string of the body, so not every variant's success payload contains
the userId. -/
theorem success_payload_counterexample :
    (generateRouteV1 [] (.str "a red cube") (.str "zz77") stubAiV1 putAlwaysOk).status
        = 200 ∧
    (generateRouteV1 [] (.str "a red cube") (.str "zz77") stubAiV1 putAlwaysOk).body
        = .success "data:image/png;base64,AQID" ∧
    (∀ s ∈ respBodyV1Strings (.success "data:image/png;base64,AQID"),
      occursIn ("zz77".data) s.data = false) := by
  refine ⟨rfl, rfl, ?_⟩
  decide

/-- C5 (amended): every `/generate` answers 200 on the full success path,
400 exactly on validation failure, and 500 on each downstream failure
(thrown inference call, invalid upstream response, missing binding, failed
put); the success payload carries the userId together with the truncated
preview (first 30 characters plus ellipsis) in `part_000` and the userId
with the full image in the worker variant, while `part_001` returns only
the data-URI-wrapped image without the userId. -/
theorem generate_responses :
    (∀ (st : Store) (prompt userId : JSVal) (ai : AIRunV0) (putF : KVPutF) (s : Nat)
        (m : String),
      validateGenerate prompt userId = .failed s m →
      generateRouteV0 st prompt userId ai putF = ⟨400, .err ⟨m, none⟩, st, [], []⟩) ∧
    (∀ (st : Store) (prompt userId : JSVal) (ai : AIRunV0) (putF : KVPutF) (p u e : String),
      validateGenerate prompt userId = .ok p u →
      ai modelSDXL ⟨p, none, none, none⟩ = .error e →
      generateRouteV0 st prompt userId ai putF
        = ⟨500, .err ⟨"Failed to generate or store image", none⟩, st,
            [(modelSDXL, ⟨p, none, none, none⟩)], []⟩) ∧
    (∀ (st : Store) (prompt userId : JSVal) (ai : AIRunV0) (putF : KVPutF) (p u : String)
        (buf : List Nat) (e : String),
      validateGenerate prompt userId = .ok p u →
      ai modelSDXL ⟨p, none, none, none⟩ = .ok buf →
      putF u (arrayBufferToBase64 buf) = .error e →
      generateRouteV0 st prompt userId ai putF
        = ⟨500, .err ⟨"Failed to generate or store image", none⟩, st,
            [(modelSDXL, ⟨p, none, none, none⟩)],
            [(u, arrayBufferToBase64 buf, some 2592000)]⟩) ∧
    (∀ (st : Store) (prompt userId : JSVal) (ai : AIRunV0) (putF : KVPutF) (p u : String)
        (buf : List Nat),
      validateGenerate prompt userId = .ok p u →
      ai modelSDXL ⟨p, none, none, none⟩ = .ok buf →
      putF u (arrayBufferToBase64 buf) = .ok () →
      generateRouteV0 st prompt userId ai putF
        = ⟨200, .success "Image generated and stored successfully" u
              ((arrayBufferToBase64 buf).take 30 ++ "..."),
            kvPut st u (arrayBufferToBase64 buf), [(modelSDXL, ⟨p, none, none, none⟩)],
            [(u, arrayBufferToBase64 buf, some 2592000)]⟩) ∧
    (∀ (st : Store) (prompt userId : JSVal) (ai : AIRunV1) (putF : KVPutF) (s : Nat)
        (m : String),
      validateGenerate prompt userId = .failed s m →
      generateRouteV1 st prompt userId ai putF = ⟨400, .err ⟨m, none⟩, st, [], []⟩) ∧
    (∀ (st : Store) (prompt userId : JSVal) (ai : AIRunV1) (putF : KVPutF) (p u e : String),
      validateGenerate prompt userId = .ok p u →
      ai modelSDXL ⟨p, none, none, none⟩ = .error e →
      generateRouteV1 st prompt userId ai putF
        = ⟨500, .err ⟨"Failed to generate image", some e⟩, st,
            [(modelSDXL, ⟨p, none, none, none⟩)], []⟩) ∧
    (∀ (st : Store) (prompt userId : JSVal) (ai : AIRunV1) (putF : KVPutF) (p u : String)
        (res : AIResponse) (det : String),
      validateGenerate prompt userId = .ok p u →
      ai modelSDXL ⟨p, none, none, none⟩ = .ok res →
      normalizeV1 res = .invalid det →
      generateRouteV1 st prompt userId ai putF
        = ⟨500, .err ⟨"AI service returned invalid response", some det⟩, st,
            [(modelSDXL, ⟨p, none, none, none⟩)], []⟩) ∧
    (∀ (st : Store) (prompt userId : JSVal) (ai : AIRunV1) (putF : KVPutF) (p u : String)
        (res : AIResponse) (buf : List Nat) (e : String),
      validateGenerate prompt userId = .ok p u →
      ai modelSDXL ⟨p, none, none, none⟩ = .ok res →
      normalizeV1 res = .buffer buf →
      putF u (arrayBufferToBase64 buf) = .error e →
      generateRouteV1 st prompt userId ai putF
        = ⟨500, .err ⟨"Failed to generate image", some e⟩, st,
            [(modelSDXL, ⟨p, none, none, none⟩)],
            [(u, arrayBufferToBase64 buf, some 2592000)]⟩) ∧
    (∀ (st : Store) (prompt userId : JSVal) (ai : AIRunV1) (putF : KVPutF) (p u : String)
        (res : AIResponse) (buf : List Nat),
      validateGenerate prompt userId = .ok p u →
      ai modelSDXL ⟨p, none, none, none⟩ = .ok res →
      normalizeV1 res = .buffer buf →
      putF u (arrayBufferToBase64 buf) = .ok () →
      generateRouteV1 st prompt userId ai putF
        = ⟨200, .success ("data:image/png;base64," ++ arrayBufferToBase64 buf),
            kvPut st u (arrayBufferToBase64 buf), [(modelSDXL, ⟨p, none, none, none⟩)],
            [(u, arrayBufferToBase64 buf, some 2592000)]⟩) ∧
    (∀ (st : Store) (prompt userId : JSVal) (ai : Option AIRunW1) (kvb : Bool)
        (putF : KVPutF) (s : Nat) (m : String),
      validateGenerateW prompt userId = .failed s m →
      generateRouteW1 st prompt userId ai kvb putF = ⟨400, .err ⟨m, none⟩, st, [], []⟩) ∧
    (∀ (st : Store) (prompt userId : JSVal) (kvb : Bool) (putF : KVPutF) (p u : String),
      validateGenerateW prompt userId = .ok p u →
      generateRouteW1 st prompt userId none kvb putF
        = ⟨500, .err ⟨"Service configuration error", none⟩, st, [], []⟩) ∧
    (∀ (st : Store) (prompt userId : JSVal) (aiF : AIRunW1) (kvb : Bool) (putF : KVPutF)
        (p u e : String),
      validateGenerateW prompt userId = .ok p u →
      aiF modelFlux ⟨p ++ styleSuffix, some 8, none, none⟩ = .error e →
      generateRouteW1 st prompt userId (some aiF) kvb putF
        = ⟨500, .err ⟨"Failed to generate image", none⟩, st,
            [(modelFlux, ⟨p ++ styleSuffix, some 8, none, none⟩)], []⟩) ∧
    (∀ (st : Store) (prompt userId : JSVal) (aiF : AIRunW1) (kvb : Bool) (putF : KVPutF)
        (p u : String) (image : Option String),
      validateGenerateW prompt userId = .ok p u →
      aiF modelFlux ⟨p ++ styleSuffix, some 8, none, none⟩ = .ok (.obj image) →
      image.getD "" = "" →
      generateRouteW1 st prompt userId (some aiF) kvb putF
        = ⟨500, .err ⟨"Failed to generate image", none⟩, st,
            [(modelFlux, ⟨p ++ styleSuffix, some 8, none, none⟩)], []⟩) ∧
    (∀ (st : Store) (prompt userId : JSVal) (aiF : AIRunW1) (putF : KVPutF)
        (p u img : String),
      validateGenerateW prompt userId = .ok p u →
      aiF modelFlux ⟨p ++ styleSuffix, some 8, none, none⟩ = .ok (.obj (some img)) →
      img ≠ "" →
      generateRouteW1 st prompt userId (some aiF) false putF
        = ⟨500, .err ⟨"Service configuration error", none⟩, st,
            [(modelFlux, ⟨p ++ styleSuffix, some 8, none, none⟩)], []⟩) ∧
    (∀ (st : Store) (prompt userId : JSVal) (aiF : AIRunW1) (putF : KVPutF)
        (p u img e : String),
      validateGenerateW prompt userId = .ok p u →
      aiF modelFlux ⟨p ++ styleSuffix, some 8, none, none⟩ = .ok (.obj (some img)) →
      img ≠ "" →
      putF u img = .error e →
      generateRouteW1 st prompt userId (some aiF) true putF
        = ⟨500, .err ⟨"Failed to generate image", none⟩, st,
            [(modelFlux, ⟨p ++ styleSuffix, some 8, none, none⟩)], [(u, img, none)]⟩) ∧
    (∀ (st : Store) (prompt userId : JSVal) (aiF : AIRunW1) (putF : KVPutF)
        (p u img : String),
      validateGenerateW prompt userId = .ok p u →
      aiF modelFlux ⟨p ++ styleSuffix, some 8, none, none⟩ = .ok (.obj (some img)) →
      img ≠ "" →
      putF u img = .ok () →
      generateRouteW1 st prompt userId (some aiF) true putF
        = ⟨200, .success "Image generated successfully" u img, kvPut st u img,
            [(modelFlux, ⟨p ++ styleSuffix, some 8, none, none⟩)], [(u, img, none)]⟩) := by
  refine ⟨?_, ?_, ?_, ?_, ?_, ?_, ?_, ?_, ?_, ?_, ?_, ?_, ?_, ?_, ?_, ?_⟩
  · intro st prompt userId ai putF s m hval
    have h4 := validateGenerate_failed _ _ _ _ hval
    subst h4
    simp [generateRouteV0, hval]
  · intro st prompt userId ai putF p u e hval hai
    simp [generateRouteV0, hval, hai]
  · intro st prompt userId ai putF p u buf e hval hai hput
    simp [generateRouteV0, hval, hai, hput]
  · intro st prompt userId ai putF p u buf hval hai hput
    simp [generateRouteV0, hval, hai, hput]
  · intro st prompt userId ai putF s m hval
    have h4 := validateGenerate_failed _ _ _ _ hval
    subst h4
    simp [generateRouteV1, hval]
  · intro st prompt userId ai putF p u e hval hai
    simp [generateRouteV1, hval, hai]
  · intro st prompt userId ai putF p u res det hval hai hnorm
    simp [generateRouteV1, hval, hai, hnorm]
  · intro st prompt userId ai putF p u res buf e hval hai hnorm hput
    simp [generateRouteV1, hval, hai, hnorm, hput]
  · intro st prompt userId ai putF p u res buf hval hai hnorm hput
    simp [generateRouteV1, hval, hai, hnorm, hput]
  · intro st prompt userId ai kvb putF s m hval
    have h4 := validateGenerateW_failed _ _ _ _ hval
    subst h4
    simp [generateRouteW1, generateW1Core, hval]
  · intro st prompt userId kvb putF p u hval
    simp [generateRouteW1, generateW1Core, hval]
  · intro st prompt userId aiF kvb putF p u e hval hai
    simp [generateRouteW1, generateW1Core, hval, hai]
  · intro st prompt userId aiF kvb putF p u image hval hai himg
    have himgb : (image.getD "" == "") = true := by simp [himg]
    simp [generateRouteW1, generateW1Core, hval, hai, himgb]
  · intro st prompt userId aiF putF p u img hval hai himg
    simp [generateRouteW1, generateW1Core, hval, hai, himg]
  · intro st prompt userId aiF putF p u img e hval hai himg hput
    simp [generateRouteW1, generateW1Core, hval, hai, himg, hput]
  · intro st prompt userId aiF putF p u img hval hai himg hput
    simp [generateRouteW1, generateW1Core, hval, hai, himg, hput]

theorem generate_responses_witness :
    (validateGenerate (.str "a red cube") (.str "u1") = .ok "a red cube" "u1" ∧
      stubAiV0 modelSDXL ⟨"a red cube", none, none, none⟩ = .ok [1, 2, 3] ∧
      putAlwaysOk "u1" (arrayBufferToBase64 [1, 2, 3]) = .ok ()) ∧
    generateRouteV0 [] (.str "a red cube") (.str "u1") stubAiV0 putAlwaysOk
      = ⟨200, .success "Image generated and stored successfully" "u1"
            ((arrayBufferToBase64 [1, 2, 3]).take 30 ++ "..."),
          kvPut [] "u1" (arrayBufferToBase64 [1, 2, 3]),
          [(modelSDXL, ⟨"a red cube", none, none, none⟩)],
          [("u1", arrayBufferToBase64 [1, 2, 3], some 2592000)]⟩ :=
  ⟨⟨rfl, rfl, rfl⟩,
    generate_responses.2.2.2.1 [] (.str "a red cube") (.str "u1") stubAiV0 putAlwaysOk
      "a red cube" "u1" [1, 2, 3] rfl rfl rfl⟩

end JamKiller
